import Mathlib

/-
Verification of the ComfyUI-basic-pitch adapter (nodes.py): a shallow embedding
of the two node entry points, `AudioToMidi.convert_audio_to_midi` and
`SaveMidi.save_midi`, together with models of the external collaborators they
touch (the filesystem, `os.path.exists`, `os.makedirs`, `os.path.join`,
`basic_pitch.inference.predict`, and the `midiutil.MIDIFile` event track).
Python floats are modelled as rationals; Python exceptions as an error type
returned in `Except`.
-/

/-- A Python numeric value: an int or a float (floats modelled as rationals). -/
inductive PyVal where
  | int (i : Int)
  | float (q : Rat)
deriving DecidableEq

/-- Python `int(x)` on a numeric value: ints unchanged, floats truncated toward zero. -/
def pyInt : PyVal → Int
  | .int i => i
  | .float q => if 0 ≤ q then q.floor else q.ceil

/-- Python `float(x)` on a numeric value, and the numeric interpretation used when
Python compares or subtracts mixed ints and floats. -/
def pyFloat : PyVal → Rat
  | .int i => (i : Rat)
  | .float q => q

/-- A filesystem path either names a regular file, names a directory, or is absent. -/
inductive FSEntry where
  | file
  | dir
  | absent
deriving DecidableEq

/-- Python `os.path.exists`: true for regular files and for directories alike. -/
def os_path_exists (fs : String → FSEntry) (p : String) : Bool :=
  decide (fs p ≠ FSEntry.absent)

/-- The Python exceptions the adapter can surface: `ValueError` (validation),
`RuntimeError` (the adapter's own wrapper), and `OSError`-family exceptions
escaping from the standard library uncaught. -/
inductive PyError where
  | valueError (msg : String)
  | runtimeError (msg : String)
  | osError (msg : String)
deriving DecidableEq

/-- True exactly for the adapter's generic `RuntimeError` wrapper. -/
def PyError.isRuntimeFailure : PyError → Bool
  | .runtimeError _ => true
  | _ => false

/-- True exactly for a `ValueError` (the adapter's validation errors). -/
def PyError.isValidation : PyError → Bool
  | .valueError _ => true
  | _ => false

/-- One note of the PrettyMIDI object returned by `basic_pitch.inference.predict`. -/
structure MidiNote where
  pitch : PyVal
  start : PyVal
  end_ : PyVal
  velocity : PyVal
deriving DecidableEq

/-- One instrument of the PrettyMIDI object. -/
structure Instrument where
  notes : List MidiNote
deriving DecidableEq

/-- The structured multi-instrument output of the external inference model. -/
structure PrettyMIDI where
  instruments : List Instrument
deriving DecidableEq

/-- The flattening loop of `convert_audio_to_midi` (nodes.py lines 52-63): iterate
every instrument's notes and emit the tuple
`(int(note.pitch), float(note.start), float(note.end), int(note.velocity))`,
modelled as a 4-element list of Python values. -/
def flattenNotes (midi_data : PrettyMIDI) : List (List PyVal) :=
  midi_data.instruments.flatMap fun instrument =>
    instrument.notes.map fun note =>
      [PyVal.int (pyInt note.pitch), PyVal.float (pyFloat note.start),
       PyVal.float (pyFloat note.end_), PyVal.int (pyInt note.velocity)]

/-- The sort key `lambda x: x[1]` of nodes.py line 66 (converter entries always
have at least two fields, so the fallback is never consulted on real data). -/
def noteKey (x : List PyVal) : Rat :=
  pyFloat (x.getD 1 (PyVal.int 0))

/-- The comparison Python's stable `list.sort(key=lambda x: x[1])` sorts by. -/
def noteLE (a b : List PyVal) : Bool :=
  decide (noteKey a ≤ noteKey b)

/-- `AudioToMidi.convert_audio_to_midi` (nodes.py lines 36-71). The filesystem and
the external `predict` call are explicit parameters; `predict` either returns a
PrettyMIDI object or raises, which the adapter wraps into a `RuntimeError`.
Python's `list.sort` is a stable sort, modelled by `List.mergeSort`. -/
def convert_audio_to_midi (fs : String → FSEntry)
    (predict : String → Rat → Rat → Except String PrettyMIDI)
    (audio_path : String) (onset_threshold frame_threshold : Rat) :
    Except PyError (List (List PyVal)) :=
  if !os_path_exists fs audio_path then
    Except.error (PyError.valueError ("Audio file not found: " ++ audio_path))
  else
    match predict audio_path onset_threshold frame_threshold with
    | Except.ok midi_data =>
        Except.ok ((flattenNotes midi_data).mergeSort noteLE)
    | Except.error e =>
        Except.error (PyError.runtimeError ("Error during audio-to-MIDI conversion: " ++ e))

/-- One event recorded into the `midiutil.MIDIFile` track: the written file is
modelled as the sequence of events it encodes. -/
inductive MIDIEvent where
  | trackName (track : Nat) (time : Rat) (name : String)
  | tempoEv (track : Nat) (time : Rat) (bpm : Int)
  | note (track : Nat) (channel : Nat) (pitch : Int) (time : Rat) (duration : Rat)
      (volume : Int)
deriving DecidableEq

/-- The filesystem state `save_midi` acts on: the set of existing directories, the
contents of existing regular files, and which paths can be opened for writing. -/
structure FS where
  dirs : List String
  files : String → Option (List MIDIEvent)
  writable : String → Bool

/-- Python `os.path.join` for the forward-slash case used here. -/
def os_path_join (p f : String) : String := p ++ "/" ++ f

/-- Python `os.makedirs(p, exist_ok=True)`: succeeds silently when `p` is already
a directory, raises `FileExistsError` when `p` exists as a regular file, and
otherwise creates the directory. -/
def makedirs (fs : FS) (p : String) : Except String FS :=
  if p ∈ fs.dirs then Except.ok fs
  else if (fs.files p).isSome then Except.error ("File exists: " ++ p)
  else Except.ok { fs with dirs := p :: fs.dirs }

/-- Opening `p` with mode "wb" and writing `content`: truncates and overwrites any
previous content when the path is writable, raises an `OSError` otherwise. -/
def fsWrite (fs : FS) (p : String) (content : List MIDIEvent) : Except String FS :=
  if fs.writable p then
    Except.ok { fs with files := fun q => if q = p then some content else fs.files q }
  else Except.error ("Permission denied: " ++ p)

/-- One iteration of the note loop of `save_midi` (nodes.py lines 119-137):
`continue` (no event) when the entry does not have exactly 4 fields, otherwise
clamp pitch and velocity with `max(0, min(127, int(x)))`, compute
`duration = end_time - start_time`, and add the note on channel 0. -/
def save_note_event (note : List PyVal) : Option MIDIEvent :=
  match note with
  | [pitch, start_time, end_time, velocity] =>
      some (MIDIEvent.note 0 0 (max 0 (min 127 (pyInt pitch))) (pyFloat start_time)
        (pyFloat end_time - pyFloat start_time) (max 0 (min 127 (pyInt velocity))))
  | _ => none

/-- The events assembled into the single-track `MIDIFile`: track name "Track 1"
and the tempo at time 0, then one note event per well-formed entry. -/
def buildEvents (midi_data : List (List PyVal)) (tempo : Int) : List MIDIEvent :=
  MIDIEvent.trackName 0 0 "Track 1" :: MIDIEvent.tempoEv 0 0 tempo ::
    midi_data.filterMap save_note_event

/-- `SaveMidi.save_midi` (nodes.py lines 104-150). An error result carries the
filesystem state at the moment the exception is raised, so partial side effects
are observable. Only the `open`/`writeFile` step is inside the `try` block of the
source; `os.makedirs` is outside it, so its exception propagates unwrapped. -/
def save_midi (fs : FS) (midi_data : List (List PyVal)) (file_name : String)
    (output_path : String) (tempo : Int) : Except (PyError × FS) FS :=
  if midi_data.isEmpty then
    Except.error (PyError.valueError "No MIDI data provided", fs)
  else
    match makedirs fs output_path with
    | Except.error e => Except.error (PyError.osError e, fs)
    | Except.ok fs1 =>
        match fsWrite fs1 (os_path_join output_path file_name)
            (buildEvents midi_data tempo) with
        | Except.error e =>
            Except.error (PyError.runtimeError ("Error saving MIDI file: " ++ e), fs1)
        | Except.ok fs2 => Except.ok fs2

/-- The contents of the file at `p` after a `save_midi` call, when the call
succeeded. -/
def savedFileAt (r : Except (PyError × FS) FS) (p : String) : Option (List MIDIEvent) :=
  match r with
  | Except.ok fs => fs.files p
  | Except.error _ => none

/-- A converter-shaped entry: exactly `(int, float, float, int)`. -/
def wellFormedNote (n : List PyVal) : Bool :=
  match n with
  | [PyVal.int _, PyVal.float _, PyVal.float _, PyVal.int _] => true
  | _ => false

/-- How many note events (as opposed to meta events) a written file contains. -/
def countNoteEvents (events : List MIDIEvent) : Nat :=
  (events.filter fun ev =>
    match ev with
    | MIDIEvent.note _ _ _ _ _ _ => true
    | _ => false).length

/-- A concrete filesystem on which every path is a regular file. -/
def fsW1 : String → FSEntry := fun _ => FSEntry.file

/-- A concrete model output: three notes, emitted out of start-time order and
with a start-time tie between the middle and last notes. -/
def mdW1 : PrettyMIDI :=
  ⟨[⟨[⟨PyVal.int 64, PyVal.float 1, PyVal.float 2, PyVal.int 80⟩,
      ⟨PyVal.int 60, PyVal.float 0, PyVal.float 1, PyVal.int 100⟩,
      ⟨PyVal.int 62, PyVal.float 0, PyVal.float 2, PyVal.int 90⟩]⟩]⟩

/-- A model that always returns `mdW1`. -/
def predictW1 : String → Rat → Rat → Except String PrettyMIDI :=
  fun _ _ _ => Except.ok mdW1

/-- The converter output on `mdW1`: sorted by start time, with the tied entries
in flattening order. -/
def sortedW1 : List (List PyVal) :=
  [[PyVal.int 60, PyVal.float 0, PyVal.float 1, PyVal.int 100],
   [PyVal.int 62, PyVal.float 0, PyVal.float 2, PyVal.int 90],
   [PyVal.int 64, PyVal.float 1, PyVal.float 2, PyVal.int 80]]

/-- A concrete empty, fully writable filesystem. -/
def fsC4 : FS := ⟨[], fun _ => none, fun _ => true⟩

/-- A concrete note list with an out-of-range pitch of 200. -/
def mdC4 : List (List PyVal) := [[PyVal.int 200, PyVal.float 0, PyVal.float 1, PyVal.int 100]]

/-- The filesystem after saving `mdC4`. -/
def fsC4r : FS :=
  ⟨["out"],
   fun q => if q = os_path_join "out" "t.mid" then some (buildEvents mdC4 120) else none,
   fun _ => true⟩

/-- A concrete empty, fully writable filesystem for the skip test. -/
def fsC5 : FS := ⟨[], fun _ => none, fun _ => true⟩

/-- A non-empty note list containing only a malformed length-3 entry. -/
def mdC5 : List (List PyVal) := [[PyVal.int 60, PyVal.float 0, PyVal.float 1]]

/-- A filesystem on which the path "out" exists as a regular file. -/
def fsC7 : FS := ⟨[], fun q => if q = "out" then some [] else none, fun _ => true⟩

/-- A well-formed, non-empty note list. -/
def mdC7 : List (List PyVal) := [[PyVal.int 60, PyVal.float 0, PyVal.float 1, PyVal.int 100]]

/-- A filesystem with nothing writable. -/
def fsC7w : FS := ⟨[], fun _ => none, fun _ => false⟩

/-- `fsC7w` after its directory creation step. -/
def fsC7w1 : FS := ⟨["out"], fun _ => none, fun _ => false⟩

/-- A concrete empty, fully writable filesystem for the idempotence test. -/
def fsC8 : FS := ⟨[], fun _ => none, fun _ => true⟩

/-- A concrete well-formed note list for the idempotence test. -/
def mdC8 : List (List PyVal) := [[PyVal.int 60, PyVal.float 0, PyVal.float 1, PyVal.int 100]]

/-- The filesystem produced by saving `mdC8` on `fsC8`. -/
def fsC8r : FS :=
  ⟨["out"],
   fun q => if q = os_path_join "out" "t.mid" then some (buildEvents mdC8 120) else none,
   fun _ => true⟩

/-
Claim theorems.
-/

/-- C2: for every audio_path that does not exist on the filesystem,
`convert_audio_to_midi` raises a `ValueError` whose message names the missing
path, and it does so for every possible inference model — the result does not
depend on `predict`, so no model call is made. -/
theorem convert_missing_path_validation
    (fs : String → FSEntry) (predict : String → Rat → Rat → Except String PrettyMIDI)
    (audio_path : String) (onset_threshold frame_threshold : Rat)
    (h : fs audio_path = FSEntry.absent) :
    convert_audio_to_midi fs predict audio_path onset_threshold frame_threshold =
      Except.error (PyError.valueError ("Audio file not found: " ++ audio_path)) := by
  unfold convert_audio_to_midi
  simp [os_path_exists, h]

/-- Witness for C2: a concrete absent path, checked against two different models
that would return different things, showing the model is never consulted. -/
theorem convert_missing_path_validation_witness :
    ((fun _ => FSEntry.absent : String → FSEntry) "missing.wav" = FSEntry.absent) ∧
    convert_audio_to_midi (fun _ => FSEntry.absent)
        (fun _ _ _ => Except.ok (PrettyMIDI.mk [])) "missing.wav" 0 0 =
      Except.error (PyError.valueError ("Audio file not found: " ++ "missing.wav")) ∧
    convert_audio_to_midi (fun _ => FSEntry.absent)
        (fun _ _ _ => Except.error "model blew up") "missing.wav" 0 0 =
      Except.error (PyError.valueError ("Audio file not found: " ++ "missing.wav")) :=
  ⟨rfl,
   convert_missing_path_validation _ _ "missing.wav" 0 0 rfl,
   convert_missing_path_validation _ _ "missing.wav" 0 0 rfl⟩

/-- C3: `save_midi` on an empty note list raises the `ValueError`
"No MIDI data provided" and returns the filesystem completely unchanged: no
directory is created and no file is written. -/
theorem save_midi_empty_validation (fs : FS) (file_name output_path : String) (tempo : Int) :
    save_midi fs [] file_name output_path tempo =
      Except.error (PyError.valueError "No MIDI data provided", fs) :=
  rfl

/-- C6: when the audio path exists and the external inference call raises, the
exception is caught and re-raised as a `RuntimeError` carrying the original
message; nothing other than this one generic failure escapes the inference
stage. -/
theorem convert_wraps_inference_error
    (fs : String → FSEntry) (predict : String → Rat → Rat → Except String PrettyMIDI)
    (audio_path : String) (onset_threshold frame_threshold : Rat) (e : String)
    (hex : fs audio_path ≠ FSEntry.absent)
    (hp : predict audio_path onset_threshold frame_threshold = Except.error e) :
    convert_audio_to_midi fs predict audio_path onset_threshold frame_threshold =
      Except.error
        (PyError.runtimeError ("Error during audio-to-MIDI conversion: " ++ e)) ∧
    PyError.isRuntimeFailure
        (PyError.runtimeError ("Error during audio-to-MIDI conversion: " ++ e)) = true := by
  constructor
  · unfold convert_audio_to_midi
    simp [os_path_exists, hex, hp]
  · rfl

/-- Witness for C6: a concrete existing file with a model that raises. -/
theorem convert_wraps_inference_error_witness :
    ((fun _ => FSEntry.file : String → FSEntry) "bad.wav" ≠ FSEntry.absent) ∧
    convert_audio_to_midi (fun _ => FSEntry.file)
        (fun _ _ _ => Except.error "unsupported format") "bad.wav" 0 0 =
      Except.error
        (PyError.runtimeError ("Error during audio-to-MIDI conversion: " ++
          "unsupported format")) :=
  ⟨by decide,
   (convert_wraps_inference_error (fun _ => FSEntry.file)
      (fun _ _ _ => Except.error "unsupported format") "bad.wav" 0 0
      "unsupported format" (by decide) rfl).1⟩

/-- C10: a path that exists as a directory passes the existence check, so no
validation error is raised; a failure of the inference call on it surfaces only
as the generic runtime failure. -/
theorem convert_dir_path_no_validation
    (fs : String → FSEntry) (predict : String → Rat → Rat → Except String PrettyMIDI)
    (audio_path : String) (onset_threshold frame_threshold : Rat) (e : String)
    (hdir : fs audio_path = FSEntry.dir)
    (hp : predict audio_path onset_threshold frame_threshold = Except.error e) :
    convert_audio_to_midi fs predict audio_path onset_threshold frame_threshold =
      Except.error
        (PyError.runtimeError ("Error during audio-to-MIDI conversion: " ++ e)) ∧
    PyError.isValidation
        (PyError.runtimeError ("Error during audio-to-MIDI conversion: " ++ e)) = false := by
  constructor
  · unfold convert_audio_to_midi
    simp [os_path_exists, hdir, hp]
  · rfl

/-- Witness for C10: a concrete directory path; opening it as audio fails inside
the model, and the adapter reports the generic runtime failure, not the
validation error. -/
theorem convert_dir_path_no_validation_witness :
    ((fun _ => FSEntry.dir : String → FSEntry) "somedir" = FSEntry.dir) ∧
    convert_audio_to_midi (fun _ => FSEntry.dir)
        (fun _ _ _ => Except.error "Is a directory") "somedir" 0 0 =
      Except.error
        (PyError.runtimeError ("Error during audio-to-MIDI conversion: " ++
          "Is a directory")) ∧
    PyError.isValidation
        (PyError.runtimeError ("Error during audio-to-MIDI conversion: " ++
          "Is a directory")) = false := by
  have h := convert_dir_path_no_validation (fun _ => FSEntry.dir)
    (fun _ _ _ => Except.error "Is a directory") "somedir" 0 0 "Is a directory" rfl rfl
  exact ⟨rfl, h.1, h.2⟩

/-- The sort comparison is transitive. -/
theorem noteLE_trans : ∀ (a b c : List PyVal), noteLE a b → noteLE b c → noteLE a c := by
  intro a b c hab hbc
  simp only [noteLE, decide_eq_true_eq] at *
  exact le_trans hab hbc

/-- The sort comparison is total. -/
theorem noteLE_total : ∀ (a b : List PyVal), noteLE a b || noteLE b a := by
  intro a b
  simp only [noteLE, Bool.or_eq_true, decide_eq_true_eq]
  exact le_total _ _

/-- Stability of the modelled sort: filtering the sorted list down to the entries
with any one start-time key gives exactly the same sequence as filtering the
input, i.e. equal-key entries keep their input order. -/
theorem mergeSort_noteLE_filter_key (l : List (List PyVal)) (k : Rat) :
    (l.mergeSort noteLE).filter (fun x => decide (noteKey x = k)) =
      l.filter (fun x => decide (noteKey x = k)) := by
  have hpw : (l.filter (fun x => decide (noteKey x = k))).Pairwise
      (fun a b => noteLE a b = true) := by
    apply List.pairwise_of_forall_mem_list
    intro a ha b hb
    have hak := (List.mem_filter.mp ha).2
    have hbk := (List.mem_filter.mp hb).2
    simp only [decide_eq_true_eq] at hak hbk
    simp [noteLE, hak, hbk]
  have h1 : List.Sublist (l.filter (fun x => decide (noteKey x = k)))
      (l.mergeSort noteLE) :=
    List.sublist_mergeSort noteLE_trans noteLE_total hpw (List.filter_sublist l)
  have h2 := h1.filter (fun x => decide (noteKey x = k))
  rw [List.filter_eq_self.mpr (fun a ha => (List.mem_filter.mp ha).2)] at h2
  have hperm : List.Perm
      ((l.mergeSort noteLE).filter (fun x => decide (noteKey x = k)))
      (l.filter (fun x => decide (noteKey x = k))) :=
    (List.mergeSort_perm l noteLE).filter _
  exact (h2.eq_of_length hperm.length_eq.symm).symm

/-- C1: a successful `convert_audio_to_midi` returns the flattened note list
sorted non-decreasing by its second component (the start time), and the sort is
stable: for every start-time value, the entries carrying it appear in exactly
the order in which the flattening emitted them from the model output. -/
theorem convert_output_sorted_stable
    (fs : String → FSEntry) (predict : String → Rat → Rat → Except String PrettyMIDI)
    (audio_path : String) (onset_threshold frame_threshold : Rat)
    (md : PrettyMIDI) (notes : List (List PyVal))
    (hp : predict audio_path onset_threshold frame_threshold = Except.ok md)
    (hc : convert_audio_to_midi fs predict audio_path onset_threshold frame_threshold =
      Except.ok notes) :
    notes.Pairwise (fun a b => noteKey a ≤ noteKey b) ∧
      ∀ k : Rat, notes.filter (fun x => decide (noteKey x = k)) =
        (flattenNotes md).filter (fun x => decide (noteKey x = k)) := by
  unfold convert_audio_to_midi at hc
  rw [hp] at hc
  split at hc
  · simp at hc
  · simp only [Except.ok.injEq] at hc
    subst hc
    refine ⟨?_, ?_⟩
    · have hs := List.sorted_mergeSort noteLE_trans noteLE_total (flattenNotes md)
      exact hs.imp fun h => by simpa [noteLE] using h
    · intro k
      exact mergeSort_noteLE_filter_key (flattenNotes md) k

/-- Witness for C1: on a concrete unsorted model output with a start-time tie,
the converter returns the sorted list, it is pairwise non-decreasing in the key,
and the two tied entries keep their flattening order. -/
theorem convert_output_sorted_stable_witness :
    predictW1 "song.wav" 0 0 = Except.ok mdW1 ∧
    convert_audio_to_midi fsW1 predictW1 "song.wav" 0 0 = Except.ok sortedW1 ∧
    sortedW1.Pairwise (fun a b => noteKey a ≤ noteKey b) ∧
    sortedW1.filter (fun x => decide (noteKey x = 0)) =
      (flattenNotes mdW1).filter (fun x => decide (noteKey x = 0)) := by
  have h1 : predictW1 "song.wav" 0 0 = Except.ok mdW1 := rfl
  have h2 : convert_audio_to_midi fsW1 predictW1 "song.wav" 0 0 = Except.ok sortedW1 := by
    unfold convert_audio_to_midi
    simp [os_path_exists, fsW1, predictW1, flattenNotes, mdW1, pyInt, pyFloat,
      List.mergeSort, List.splitInTwo, List.merge, noteLE, noteKey, sortedW1]
  have h := convert_output_sorted_stable fsW1 predictW1 "song.wav" 0 0 mdW1 sortedW1 h1 h2
  exact ⟨h1, h2, h.1, h.2 0⟩

/-- C9: every element of a successful converter output is exactly a 4-field
entry of shape (int pitch, float start, float end, int velocity); in particular
it has length 4 and the writer's malformed-entry skip branch can never fire on
converter output. -/
theorem convert_output_well_formed
    (fs : String → FSEntry) (predict : String → Rat → Rat → Except String PrettyMIDI)
    (audio_path : String) (onset_threshold frame_threshold : Rat)
    (md : PrettyMIDI) (notes : List (List PyVal))
    (hp : predict audio_path onset_threshold frame_threshold = Except.ok md)
    (hc : convert_audio_to_midi fs predict audio_path onset_threshold frame_threshold =
      Except.ok notes) :
    ∀ n ∈ notes, wellFormedNote n = true ∧ n.length = 4 ∧
      (save_note_event n).isSome = true := by
  unfold convert_audio_to_midi at hc
  rw [hp] at hc
  split at hc
  · simp at hc
  · simp only [Except.ok.injEq] at hc
    subst hc
    intro n hn
    rw [List.mem_mergeSort] at hn
    unfold flattenNotes at hn
    rw [List.mem_flatMap] at hn
    obtain ⟨instrument, _, hn⟩ := hn
    rw [List.mem_map] at hn
    obtain ⟨note, _, rfl⟩ := hn
    exact ⟨rfl, rfl, rfl⟩

/-- Witness for C9: on the concrete run of `mdW1`, the first returned entry is
well formed, has length 4, and is not skipped by the writer. -/
theorem convert_output_well_formed_witness :
    predictW1 "tune.wav" 0 0 = Except.ok mdW1 ∧
    convert_audio_to_midi fsW1 predictW1 "tune.wav" 0 0 = Except.ok sortedW1 ∧
    wellFormedNote [PyVal.int 60, PyVal.float 0, PyVal.float 1, PyVal.int 100] = true ∧
    ([PyVal.int 60, PyVal.float 0, PyVal.float 1, PyVal.int 100] : List PyVal).length = 4 ∧
    (save_note_event [PyVal.int 60, PyVal.float 0, PyVal.float 1, PyVal.int 100]).isSome
      = true := by
  have h1 : predictW1 "tune.wav" 0 0 = Except.ok mdW1 := rfl
  have h2 : convert_audio_to_midi fsW1 predictW1 "tune.wav" 0 0 = Except.ok sortedW1 := by
    unfold convert_audio_to_midi
    simp [os_path_exists, fsW1, predictW1, flattenNotes, mdW1, pyInt, pyFloat,
      List.mergeSort, List.splitInTwo, List.merge, noteLE, noteKey, sortedW1]
  have h := convert_output_well_formed fsW1 predictW1 "tune.wav" 0 0 mdW1 sortedW1 h1 h2
    [PyVal.int 60, PyVal.float 0, PyVal.float 1, PyVal.int 100] (by decide)
  exact ⟨h1, h2, h.1, h.2.1, h.2.2⟩

/-- A successful `makedirs` leaves the target in the directory set and changes no
file contents or permissions. -/
theorem makedirs_ok_mem (fs fsA : FS) (p : String) (h : makedirs fs p = Except.ok fsA) :
    p ∈ fsA.dirs ∧ fsA.files = fs.files ∧ fsA.writable = fs.writable := by
  unfold makedirs at h
  split at h
  · rename_i hm
    simp only [Except.ok.injEq] at h
    subst h
    exact ⟨hm, rfl, rfl⟩
  · split at h
    · simp at h
    · simp only [Except.ok.injEq] at h
      subst h
      exact ⟨List.mem_cons_self _ _, rfl, rfl⟩

/-- `makedirs` is a no-op on a directory that already exists. -/
theorem makedirs_mem_self (fs : FS) (p : String) (h : p ∈ fs.dirs) :
    makedirs fs p = Except.ok fs := by
  unfold makedirs
  rw [if_pos h]

/-- A successful write requires the path to be writable and replaces exactly that
path's contents. -/
theorem fsWrite_ok (fs : FS) (p : String) (c : List MIDIEvent) (fs2 : FS)
    (h : fsWrite fs p c = Except.ok fs2) :
    fs.writable p = true ∧
      fs2 = { fs with files := fun q => if q = p then some c else fs.files q } := by
  unfold fsWrite at h
  split at h
  · rename_i hw
    simp only [Except.ok.injEq] at h
    exact ⟨hw, h.symm⟩
  · simp at h

/-- Every note event of the assembled track has clamped pitch and velocity. -/
theorem buildEvents_note_mem (midi_data : List (List PyVal)) (tempo : Int)
    (tr ch : Nat) (pi : Int) (ti du : Rat) (vo : Int)
    (hmem : MIDIEvent.note tr ch pi ti du vo ∈ buildEvents midi_data tempo) :
    0 ≤ pi ∧ pi ≤ 127 ∧ 0 ≤ vo ∧ vo ≤ 127 := by
  unfold buildEvents at hmem
  cases hmem with
  | tail _ hmem =>
    cases hmem with
    | tail _ hmem =>
      obtain ⟨n, _, hsome⟩ := List.mem_filterMap.mp hmem
      unfold save_note_event at hsome
      split at hsome
      · simp only [Option.some.injEq, MIDIEvent.note.injEq] at hsome
        obtain ⟨_, _, hpi, _, _, hvo⟩ := hsome
        subst hpi
        subst hvo
        refine ⟨le_max_left _ _, max_le (by decide) (min_le_left _ _),
          le_max_left _ _, max_le (by decide) (min_le_left _ _)⟩
      · simp at hsome

/-- C4: whenever `save_midi` succeeds, every note event written to the output
file carries a pitch and a velocity clamped into [0, 127], whatever the input
values were. -/
theorem save_midi_clamps_range
    (fs fs2 : FS) (midi_data : List (List PyVal)) (file_name output_path : String)
    (tempo : Int) (events : List MIDIEvent)
    (h : save_midi fs midi_data file_name output_path tempo = Except.ok fs2)
    (hf : fs2.files (os_path_join output_path file_name) = some events) :
    ∀ tr ch pi ti du vo, MIDIEvent.note tr ch pi ti du vo ∈ events →
      0 ≤ pi ∧ pi ≤ 127 ∧ 0 ≤ vo ∧ vo ≤ 127 := by
  unfold save_midi at h
  split at h
  · simp at h
  · split at h
    · simp at h
    · rename_i fsA hmk
      split at h
      · simp at h
      · rename_i fsB hw
        simp only [Except.ok.injEq] at h
        subst h
        obtain ⟨hwri, hB⟩ := fsWrite_ok fsA _ _ fsB hw
        rw [hB] at hf
        simp only [if_pos, Option.some.injEq] at hf
        subst hf
        intro tr ch pi ti du vo hmem
        exact buildEvents_note_mem midi_data tempo tr ch pi ti du vo hmem

/-- Witness for C4: saving a note with pitch 200 succeeds, the written note event
is the clamped one, the clamp of 200 is exactly 127, and the bounds follow from
the theorem at this input. -/
theorem save_midi_clamps_range_witness :
    save_midi fsC4 mdC4 "t.mid" "out" 120 = Except.ok fsC4r ∧
    fsC4r.files (os_path_join "out" "t.mid") = some (buildEvents mdC4 120) ∧
    max 0 (min 127 (pyInt (PyVal.int 200))) = 127 ∧
    (0 ≤ max 0 (min 127 (pyInt (PyVal.int 200))) ∧
      max 0 (min 127 (pyInt (PyVal.int 200))) ≤ 127 ∧
      0 ≤ max 0 (min 127 (pyInt (PyVal.int 100))) ∧
      max 0 (min 127 (pyInt (PyVal.int 100))) ≤ 127) := by
  have h1 : save_midi fsC4 mdC4 "t.mid" "out" 120 = Except.ok fsC4r := rfl
  have hb := save_midi_clamps_range fsC4 fsC4r mdC4 "t.mid" "out" 120
    (buildEvents mdC4 120) h1 rfl
    0 0 (max 0 (min 127 (pyInt (PyVal.int 200)))) (pyFloat (PyVal.float 0))
    (pyFloat (PyVal.float 1) - pyFloat (PyVal.float 0)) (max 0 (min 127 (pyInt (PyVal.int 100))))
    (List.Mem.tail _ (List.Mem.tail _ (List.Mem.head _)))
  exact ⟨h1, rfl, by decide, hb⟩

/-- An entry without exactly 4 fields produces no event. -/
theorem save_note_event_skip (n : List PyVal) (h : n.length ≠ 4) :
    save_note_event n = none := by
  cases n with
  | nil => rfl
  | cons a t =>
    cases t with
    | nil => rfl
    | cons b t =>
      cases t with
      | nil => rfl
      | cons c t =>
        cases t with
        | nil => rfl
        | cons d t =>
          cases t with
          | nil => exact absurd rfl h
          | cons e t => rfl

/-- Malformed entries contribute nothing to the assembled track: the events are
exactly those of the sub-list of entries with exactly 4 fields. -/
theorem buildEvents_filter (md : List (List PyVal)) (tempo : Int) :
    buildEvents md tempo = buildEvents (md.filter fun n => n.length == 4) tempo := by
  unfold buildEvents
  have : md.filterMap save_note_event =
      (md.filter fun n => n.length == 4).filterMap save_note_event := by
    induction md with
    | nil => rfl
    | cons a t ih =>
      by_cases ha : a.length = 4
      · simp only [List.filterMap_cons, List.filter_cons, ha]
        simp only [beq_self_eq_true, if_true, List.filterMap_cons]
        rw [ih]
      · simp only [List.filterMap_cons, List.filter_cons,
          save_note_event_skip a ha]
        rw [if_neg (by simpa using ha), ih]
  rw [this]

/-- When the target is not an existing regular file, `makedirs` succeeds, either
leaving the filesystem unchanged or adding just the directory. -/
theorem makedirs_not_file_ok (fs : FS) (p : String) (h : (fs.files p).isSome = false) :
    makedirs fs p = Except.ok fs ∨
      makedirs fs p = Except.ok { fs with dirs := p :: fs.dirs } := by
  unfold makedirs
  by_cases hmem : p ∈ fs.dirs
  · rw [if_pos hmem]
    exact Or.inl rfl
  · rw [if_neg hmem, if_neg (by simp [h])]
    exact Or.inr rfl

/-- The successful path of `save_midi`: when the list is non-empty, the directory
step succeeds and the destination is writable, the result overwrites exactly the
destination file with the assembled events. -/
theorem save_midi_ok_of (fs fsA : FS) (midi_data : List (List PyVal))
    (file_name output_path : String) (tempo : Int)
    (hne' : midi_data.isEmpty = false)
    (hmk : makedirs fs output_path = Except.ok fsA)
    (hw : fsA.writable (os_path_join output_path file_name) = true) :
    save_midi fs midi_data file_name output_path tempo =
      Except.ok { fsA with files := fun q =>
        (if q = os_path_join output_path file_name
          then some (buildEvents midi_data tempo) else fsA.files q) } := by
  unfold save_midi
  simp only [hne', Bool.false_eq_true, if_false, hmk]
  unfold fsWrite
  rw [if_pos hw]

/-- C5: when every entry of a non-empty note list is malformed (length different
from 4), `save_midi` raises no error: it silently skips all of them and still
writes the output file, which then contains only the track-name and tempo events
and zero notes. -/
theorem save_midi_skips_malformed
    (fs : FS) (midi_data : List (List PyVal)) (file_name output_path : String) (tempo : Int)
    (hne : midi_data ≠ [])
    (hbad : ∀ n ∈ midi_data, n.length ≠ 4)
    (hdir : output_path ∈ fs.dirs ∨ (fs.files output_path).isSome = false)
    (hw : fs.writable (os_path_join output_path file_name) = true) :
    (∀ (md2 : List (List PyVal)) (t2 : Int),
      buildEvents md2 t2 = buildEvents (md2.filter fun n => n.length == 4) t2) ∧
    savedFileAt (save_midi fs midi_data file_name output_path tempo)
        (os_path_join output_path file_name) =
      some [MIDIEvent.trackName 0 0 "Track 1", MIDIEvent.tempoEv 0 0 tempo] ∧
    countNoteEvents [MIDIEvent.trackName 0 0 "Track 1", MIDIEvent.tempoEv 0 0 tempo] = 0 := by
  have hev : buildEvents midi_data tempo =
      [MIDIEvent.trackName 0 0 "Track 1", MIDIEvent.tempoEv 0 0 tempo] := by
    unfold buildEvents
    rw [List.filterMap_eq_nil_iff.mpr fun n hn => save_note_event_skip n (hbad n hn)]
  have hne' : midi_data.isEmpty = false := by
    cases midi_data
    · exact absurd rfl hne
    · rfl
  refine ⟨buildEvents_filter, ?_, rfl⟩
  have hstep : ∀ fsA : FS, fsA.writable = fs.writable →
      makedirs fs output_path = Except.ok fsA →
      savedFileAt (save_midi fs midi_data file_name output_path tempo)
        (os_path_join output_path file_name) =
      some [MIDIEvent.trackName 0 0 "Track 1", MIDIEvent.tempoEv 0 0 tempo] := by
    intro fsA hwA hA
    rw [save_midi_ok_of fs fsA midi_data file_name output_path tempo hne' hA
      (by rw [hwA]; exact hw)]
    show (if os_path_join output_path file_name = os_path_join output_path file_name
        then some (buildEvents midi_data tempo)
        else fsA.files (os_path_join output_path file_name)) =
      some [MIDIEvent.trackName 0 0 "Track 1", MIDIEvent.tempoEv 0 0 tempo]
    rw [if_pos rfl, hev]
  rcases hdir with hmem | hnof
  · exact hstep fs rfl (makedirs_mem_self fs output_path hmem)
  · rcases makedirs_not_file_ok fs output_path hnof with hA | hA
    · exact hstep fs rfl hA
    · exact hstep { fs with dirs := output_path :: fs.dirs } rfl hA

/-- Witness for C5: saving a non-empty list whose only entry has length 3
produces a file holding just the track-name and tempo events and zero notes. -/
theorem save_midi_skips_malformed_witness :
    (mdC5 ≠ []) ∧ (∀ n ∈ mdC5, n.length ≠ 4) ∧
    ("out" ∈ fsC5.dirs ∨ (fsC5.files "out").isSome = false) ∧
    fsC5.writable (os_path_join "out" "t.mid") = true ∧
    buildEvents mdC5 120 = buildEvents (mdC5.filter fun n => n.length == 4) 120 ∧
    savedFileAt (save_midi fsC5 mdC5 "t.mid" "out" 120) (os_path_join "out" "t.mid") =
      some [MIDIEvent.trackName 0 0 "Track 1", MIDIEvent.tempoEv 0 0 120] ∧
    countNoteEvents [MIDIEvent.trackName 0 0 "Track 1", MIDIEvent.tempoEv 0 0 120] = 0 := by
  have h := save_midi_skips_malformed fsC5 mdC5 "t.mid" "out" 120 (by decide) (by decide)
    (Or.inr rfl) rfl
  exact ⟨by decide, by decide, Or.inr rfl, rfl, h.1 mdC5 120, h.2.1, h.2.2⟩

/-- Counterexample to C7 as stated: with "out" existing as a regular file,
`os.makedirs` raises `FileExistsError`; because the makedirs call sits outside
the try block of `save_midi`, the exception propagates with its original type —
it is not re-raised as the generic runtime failure, so not every file-I/O
exception of `save_midi` is wrapped. -/
theorem save_midi_dir_error_not_wrapped :
    save_midi fsC7 mdC7 "t.mid" "out" 120 =
      Except.error (PyError.osError ("File exists: " ++ "out"), fsC7) ∧
    PyError.isRuntimeFailure (PyError.osError ("File exists: " ++ "out")) = false :=
  ⟨rfl, rfl⟩

/-- C7 (amended): only exceptions raised while opening or writing the
destination file are caught and re-raised as the generic runtime failure
wrapping the original message; the directory-creation step sits outside the try
block (and event assembly in this adapter raises nothing), so its failures
propagate unwrapped. -/
theorem save_midi_wraps_write_error
    (fs fs1 : FS) (midi_data : List (List PyVal)) (file_name output_path : String)
    (tempo : Int) (e : String)
    (hne : midi_data ≠ [])
    (hmk : makedirs fs output_path = Except.ok fs1)
    (hw : fsWrite fs1 (os_path_join output_path file_name) (buildEvents midi_data tempo) =
      Except.error e) :
    save_midi fs midi_data file_name output_path tempo =
      Except.error (PyError.runtimeError ("Error saving MIDI file: " ++ e), fs1) := by
  have hne' : midi_data.isEmpty = false := by
    cases midi_data
    · exact absurd rfl hne
    · rfl
  unfold save_midi
  simp only [hne', Bool.false_eq_true, if_false, hmk, hw]

/-- Witness for the amended C7: on an unwritable filesystem the directory step
succeeds, the write raises, and `save_midi` reports the wrapped runtime failure
with the directory already created. -/
theorem save_midi_wraps_write_error_witness :
    (mdC7 ≠ []) ∧
    makedirs fsC7w "out" = Except.ok fsC7w1 ∧
    fsWrite fsC7w1 (os_path_join "out" "t.mid") (buildEvents mdC7 120) =
      Except.error ("Permission denied: " ++ os_path_join "out" "t.mid") ∧
    save_midi fsC7w mdC7 "t.mid" "out" 120 =
      Except.error (PyError.runtimeError ("Error saving MIDI file: " ++
        ("Permission denied: " ++ os_path_join "out" "t.mid")), fsC7w1) :=
  ⟨by decide, rfl, rfl,
   save_midi_wraps_write_error fsC7w fsC7w1 mdC7 "t.mid" "out" 120
     ("Permission denied: " ++ os_path_join "out" "t.mid") (by decide) rfl rfl⟩

/-- C8: running `save_midi` a second time with identical arguments from the state
the first successful run produced returns exactly that state again: the
directory creation is idempotent and the destination file is overwritten with
identical contents, so the on-disk file is byte-identical. -/
theorem save_midi_idempotent
    (fs fs1 : FS) (midi_data : List (List PyVal)) (file_name output_path : String)
    (tempo : Int)
    (h : save_midi fs midi_data file_name output_path tempo = Except.ok fs1) :
    save_midi fs1 midi_data file_name output_path tempo = Except.ok fs1 := by
  unfold save_midi at h
  split at h
  · simp at h
  · rename_i hne
    split at h
    · simp at h
    · rename_i fsA hmk
      split at h
      · simp at h
      · rename_i fsB hw
        simp only [Except.ok.injEq] at h
        rw [← h]
        obtain ⟨hmemA, hfA, hwrA⟩ := makedirs_ok_mem fs fsA output_path hmk
        obtain ⟨hwri, hB⟩ := fsWrite_ok fsA _ _ fsB hw
        have hne' : midi_data.isEmpty = false := by
          cases hb : midi_data.isEmpty
          · rfl
          · exact absurd hb hne
        have hmem1 : output_path ∈ fsB.dirs := by
          rw [hB]
          exact hmemA
        have hwr1 : fsB.writable (os_path_join output_path file_name) = true := by
          rw [hB]
          exact hwri
        rw [save_midi_ok_of fsB fsB midi_data file_name output_path tempo hne'
          (makedirs_mem_self fsB output_path hmem1) hwr1]
        refine congrArg Except.ok ?_
        rw [hB]
        obtain ⟨dA, fA, wA⟩ := fsA
        congr 1
        funext q
        by_cases hq : q = os_path_join output_path file_name
        · simp [hq]
        · simp [hq]

/-- Witness for C8: a concrete first save succeeds, the repeated save returns the
same filesystem, and the destination file contents agree byte for byte. -/
theorem save_midi_idempotent_witness :
    save_midi fsC8 mdC8 "t.mid" "out" 120 = Except.ok fsC8r ∧
    save_midi fsC8r mdC8 "t.mid" "out" 120 = Except.ok fsC8r ∧
    savedFileAt (save_midi fsC8r mdC8 "t.mid" "out" 120) (os_path_join "out" "t.mid") =
      fsC8r.files (os_path_join "out" "t.mid") := by
  have h1 : save_midi fsC8 mdC8 "t.mid" "out" 120 = Except.ok fsC8r := rfl
  have h2 := save_midi_idempotent fsC8 fsC8r mdC8 "t.mid" "out" 120 h1
  refine ⟨h1, h2, ?_⟩
  rw [h2]
  rfl
